import Mathlib

/-!
# Verification of the TerraInsight wildfire risk-scoring pipeline

Shallow embedding of `src/models/wildfire_risk_model.py` and the fire-spread
simulation endpoint of `src/models/api_server.py`.

Python feature dictionaries (`Dict[str, float]`) are embedded as association
lists `List (String × ℚ)`; `dict_get` embeds Python's `dict.get(key, default)`.
Machine floats are embedded as rationals: every arithmetic the claims touch is
addition, multiplication, division and threshold comparison on small decimal
constants, which floats carry out exactly in the relevant range.
-/

set_option autoImplicit false

namespace TerraInsight

/-- A Python `Dict[str, float]` feature mapping, embedded as an association
list (first binding for a key wins, as a dict has unique keys). -/
abbrev FeatureMap := List (String × ℚ)

/-- Embedding of Python `data.get(key, default)`. -/
def dict_get : FeatureMap → String → ℚ → ℚ
  | [], _, default => default
  | (k, v) :: rest, key, default =>
    if k = key then v else dict_get rest key default

/-- Whether the dictionary binds `key` (Python `key in data`). -/
def dict_has_key : FeatureMap → String → Bool
  | [], _ => false
  | (k, _) :: rest, key => k = key || dict_has_key rest key

/-- `self.feature_names` from `WildfireRiskModel.__init__`: the fixed ordered
list of the 15 model-input features. -/
def feature_names : List String :=
  ["ndvi", "ndmi", "temperature", "humidity", "wind_speed",
   "slope", "aspect", "elevation", "distance_to_road",
   "distance_to_water", "fuel_moisture", "drought_index",
   "days_since_rain", "population_density", "historical_fires"]

/-- `WildfireRiskModel._calculate_vegetation_risk`. -/
def calculate_vegetation_risk (data : FeatureMap) : ℚ :=
  let ndvi := dict_get data "ndvi" 0
  let _ndmi := dict_get data "ndmi" 0   -- read in the source, never used
  let fuel_moisture := dict_get data "fuel_moisture" 50
  if 0.6 < ndvi ∧ fuel_moisture < 30 then 80
  else if 0.4 < ndvi ∧ fuel_moisture < 40 then 60
  else if 0.2 < ndvi then 40
  else 20

/-- `WildfireRiskModel._calculate_weather_risk`: an additive ladder,
clamped to 100. -/
def calculate_weather_risk (data : FeatureMap) : ℚ :=
  let temp := dict_get data "temperature" 20
  let humidity := dict_get data "humidity" 50
  let wind_speed := dict_get data "wind_speed" 0
  let days_since_rain := dict_get data "days_since_rain" 0
  let weather_risk : ℚ := 0
  let weather_risk := weather_risk +
    (if 30 < temp then 25 else if 25 < temp then 15 else 0)
  let weather_risk := weather_risk +
    (if humidity < 30 then 25 else if humidity < 40 then 15 else 0)
  let weather_risk := weather_risk +
    (if 20 < wind_speed then 25 else if 10 < wind_speed then 15 else 0)
  let weather_risk := weather_risk +
    (if 14 < days_since_rain then 25 else if 7 < days_since_rain then 15 else 0)
  min weather_risk 100

/-- `WildfireRiskModel._calculate_terrain_risk`: exclusive slope tiers plus a
south-facing aspect bonus; the source applies no upper clamp. -/
def calculate_terrain_risk (data : FeatureMap) : ℚ :=
  let slope := dict_get data "slope" 0
  let aspect := dict_get data "aspect" 0
  let terrain_risk : ℚ := 0
  let terrain_risk := terrain_risk +
    (if 30 < slope then 40 else if 20 < slope then 25 else if 10 < slope then 15 else 0)
  let terrain_risk := terrain_risk +
    (if 135 ≤ aspect ∧ aspect ≤ 225 then 20 else 0)
  terrain_risk

/-- `WildfireRiskModel._calculate_proximity_risk`: additive ladder, clamped
to 100. -/
def calculate_proximity_risk (data : FeatureMap) : ℚ :=
  let distance_to_water := dict_get data "distance_to_water" 10
  let distance_to_road := dict_get data "distance_to_road" 1
  let population_density := dict_get data "population_density" 100
  let proximity_risk : ℚ := 0
  let proximity_risk := proximity_risk +
    (if 5 < distance_to_water then 30 else if 2 < distance_to_water then 20 else 0)
  let proximity_risk := proximity_risk +
    (if 5 < distance_to_road then 30 else if 2 < distance_to_road then 20 else 0)
  let proximity_risk := proximity_risk +
    (if 1000 < population_density then 20 else 0)
  min proximity_risk 100

/-- `WildfireRiskModel._get_risk_level`. -/
def get_risk_level (risk_score : ℚ) : String :=
  if 80 ≤ risk_score then "EXTREME"
  else if 60 ≤ risk_score then "HIGH"
  else if 40 ≤ risk_score then "MODERATE"
  else if 20 ≤ risk_score then "LOW"
  else "MINIMAL"

/-- One entry of the list returned by
`WildfireRiskModel._generate_recommendations`. -/
structure Recommendation where
  priority : String
  action : String
  description : String
  estimated_cost : ℚ
  risk_reduction : ℚ
deriving DecidableEq

/-- The recommendation appended when `veg_risk > 60`. -/
def vegetation_management : Recommendation :=
  { priority := "HIGH"
    action := "Vegetation Management"
    description := "Create defensible space by clearing vegetation within 30 feet of structures"
    estimated_cost := 2500
    risk_reduction := 15 }

/-- The recommendation appended when `risk_score > 70`. -/
def install_sprinkler_system : Recommendation :=
  { priority := "HIGH"
    action := "Install Sprinkler System"
    description := "Install rooftop sprinkler system for ember protection"
    estimated_cost := 5000
    risk_reduction := 20 }

/-- The recommendation appended when `terrain_risk > 50`. -/
def create_fuel_breaks : Recommendation :=
  { priority := "MEDIUM"
    action := "Create Fuel Breaks"
    description := "Establish fuel breaks on steep slopes to slow fire spread"
    estimated_cost := 3500
    risk_reduction := 10 }

/-- The recommendation appended unconditionally, last. -/
def emergency_planning : Recommendation :=
  { priority := "MEDIUM"
    action := "Emergency Planning"
    description := "Develop and practice evacuation plan with multiple routes"
    estimated_cost := 0
    risk_reduction := 5 }

/-- `WildfireRiskModel._generate_recommendations`: sequential appends to an
initially empty list, mirroring the Python mutation of `recommendations`.
`weather_risk` is a parameter of the source function but never read. -/
def generate_recommendations (risk_score veg_risk _weather_risk terrain_risk : ℚ) :
    List Recommendation :=
  let recommendations : List Recommendation := []
  let recommendations :=
    if 60 < veg_risk then recommendations ++ [vegetation_management] else recommendations
  let recommendations :=
    if 70 < risk_score then recommendations ++ [install_sprinkler_system] else recommendations
  let recommendations :=
    if 50 < terrain_risk then recommendations ++ [create_fuel_breaks] else recommendations
  recommendations ++ [emergency_planning]

/-- A fitted `sklearn.preprocessing.StandardScaler`: per-feature mean and
scale, in feature order. -/
structure Scaler where
  mean_ : List ℚ
  scale_ : List ℚ
deriving DecidableEq

/-- sklearn's `_handle_zeros_in_scale`: a zero scale is replaced by 1 so the
transform never divides by zero. -/
def handle_zeros_in_scale (s : ℚ) : ℚ :=
  if s = 0 then 1 else s

/-- `StandardScaler.fit` on a single-row matrix, as `calculate_risk_score`
performs it on `features_array = np.array(features).reshape(1, -1)`: each
column holds exactly one value `x`, so the column mean is `x / 1` and the
column population variance is `(x - x/1)^2 / 1 = 0`.  The stored scale is the
standard deviation (the square root of the variance, which is `0` here, with
square root `0`) passed through `_handle_zeros_in_scale`. -/
def scaler_fit_single (xs : List ℚ) : Scaler :=
  { mean_ := xs.map (fun x => x / 1)
    scale_ := xs.map (fun x => handle_zeros_in_scale ((x - x / 1) ^ 2 / 1)) }

/-- `StandardScaler.transform`: per-feature `(x - mean) / scale`. -/
def scaler_transform (s : Scaler) (xs : List ℚ) : List ℚ :=
  (xs.zip (s.mean_.zip s.scale_)).map (fun p => (p.1 - p.2.1) / p.2.2)

/-- The fire-spread summary built by `WildfireRiskModel._simulate_fire_spread`
(the single-shot estimate embedded in the risk report). -/
structure FireSpreadInfo where
  spread_rate_kmh : ℚ
  primary_direction : ℚ
  time_to_property_minutes : ℚ
  evacuation_time_needed : ℚ
  safe_zones : List String
deriving DecidableEq

/-- `WildfireRiskModel._simulate_fire_spread`.  Note `60 / spread_rate` is
rational division; the source would raise `ZeroDivisionError` at
`spread_rate = 0`, a point no claim touches. -/
def model_simulate_fire_spread (data : FeatureMap) : FireSpreadInfo :=
  let wind_speed := dict_get data "wind_speed" 10
  let wind_direction := dict_get data "wind_direction" 0
  let slope := dict_get data "slope" 0
  let base_spread_rate : ℚ := 0.5
  let wind_factor := 1 + wind_speed / 20
  let slope_factor := 1 + slope / 30
  let spread_rate := base_spread_rate * wind_factor * slope_factor
  { spread_rate_kmh := spread_rate
    primary_direction := wind_direction
    time_to_property_minutes := 60 / spread_rate
    evacuation_time_needed := 30
    safe_zones := ["North", "Northeast"] }

/-- The risk report assembled by `WildfireRiskModel.calculate_risk_score`.
The `assessment_timestamp` (wall-clock time) is outside the embedding; the
static `confidence_score` placeholder is kept. -/
structure RiskAssessment where
  overall_risk_score : ℚ
  risk_level : String
  vegetation_risk : ℚ
  weather_risk : ℚ
  terrain_risk : ℚ
  proximity_risk : ℚ
  recommendations : List Recommendation
  fire_spread_simulation : FireSpreadInfo
  confidence_score : ℚ

/-- `WildfireRiskModel.calculate_risk_score`, with the trained network's
scoring function abstracted as `predict` (the embedding quantifies over it:
no claim depends on the network's weights) and the model's mutable scaler
passed as explicit state.  The source calls `self.scaler.fit_transform` on
the single-sample feature vector, which refits — overwrites — the stored
scaler; the returned pair carries the report and the scaler state after the
call. -/
def calculate_risk_score (predict : List ℚ → ℚ) (_scaler : Scaler)
    (property_data : FeatureMap) : RiskAssessment × Scaler :=
  let features := feature_names.map (fun n => dict_get property_data n 0)
  let scaler := scaler_fit_single features
  let features_normalized := scaler_transform scaler features
  let risk_score := predict features_normalized
  let vegetation_risk := calculate_vegetation_risk property_data
  let weather_risk := calculate_weather_risk property_data
  let terrain_risk := calculate_terrain_risk property_data
  let proximity_risk := calculate_proximity_risk property_data
  let recommendations :=
    generate_recommendations risk_score vegetation_risk weather_risk terrain_risk
  let fire_spread := model_simulate_fire_spread property_data
  ({ overall_risk_score := risk_score
     risk_level := get_risk_level risk_score
     vegetation_risk := vegetation_risk
     weather_risk := weather_risk
     terrain_risk := terrain_risk
     proximity_risk := proximity_risk
     recommendations := recommendations
     fire_spread_simulation := fire_spread
     confidence_score := 0.85 }, scaler)

/-- One per-hour sample of the `/simulate-fire-spread` endpoint
(`api_server.simulate_fire_spread`). -/
structure SpreadPattern where
  hour : ℕ
  radius_km : ℚ
  area_hectares : ℚ
  perimeter_km : ℚ
deriving DecidableEq

/-- The per-hour spread rate recomputed identically in every iteration of the
loop in `api_server.simulate_fire_spread`:
`0.5 * (1 + wind_speed/10 + slope/20)` with `wind_speed` read from
`weather_conditions` (default 10) and `slope` from `terrain_data`
(default 10). -/
def hourly_spread_rate (weather_conditions terrain_data : FeatureMap) : ℚ :=
  let wind_factor := dict_get weather_conditions "wind_speed" 10 / 10
  let slope_factor := dict_get terrain_data "slope" 10 / 20
  0.5 * (1 + wind_factor + slope_factor)

/-- The loop body of `api_server.simulate_fire_spread`: `remaining` iterations
starting at hour `hour` with accumulated radius `current_radius`. -/
def spread_go (weather_conditions terrain_data : FeatureMap) :
    ℕ → ℕ → ℚ → List SpreadPattern
  | 0, _, _ => []
  | remaining + 1, hour, current_radius =>
    let spread_rate := hourly_spread_rate weather_conditions terrain_data
    let r := current_radius + spread_rate
    { hour := hour
      radius_km := r
      area_hectares := 3.14159 * r ^ 2 * 100
      perimeter_km := 2 * 3.14159 * r } ::
      spread_go weather_conditions terrain_data remaining (hour + 1) r

/-- `api_server.simulate_fire_spread`'s `spread_patterns` list: hours
`0 .. hours-1`, radius starting at 0. -/
def simulate_fire_spread (weather_conditions terrain_data : FeatureMap)
    (hours : ℕ) : List SpreadPattern :=
  spread_go weather_conditions terrain_data hours 0 0

/-! ## Claim-side constructions

`extend_absent` renders the spec phrase "the mapping extended with a binding
for every absent key"; the two tables below instantiate it with the value 0
(the claim's words) and with the per-key defaults the scorers actually pass
to `dict.get` (the amended reading). -/

/-- `m` extended with the bindings of `table` for exactly those keys of
`table` that are absent from `m`. -/
def extend_absent (m table : FeatureMap) : FeatureMap :=
  m ++ table.filter (fun p => ! dict_has_key m p.1)

/-- Every documented feature key bound to 0. -/
def zero_defaults : FeatureMap :=
  feature_names.map (fun n => (n, 0))

/-- The default each heuristic scorer passes to `dict.get` for each key it
reads, collected from the bodies of `_calculate_vegetation_risk`,
`_calculate_weather_risk`, `_calculate_terrain_risk` and
`_calculate_proximity_risk`. -/
def heuristic_defaults : FeatureMap :=
  [("ndvi", 0), ("ndmi", 0), ("fuel_moisture", 50),
   ("temperature", 20), ("humidity", 50), ("wind_speed", 0), ("days_since_rain", 0),
   ("slope", 0), ("aspect", 0),
   ("distance_to_water", 10), ("distance_to_road", 1), ("population_density", 100)]

/-! ## Dictionary lemmas -/

lemma dict_get_not_has (m : FeatureMap) (k : String) (d : ℚ)
    (h : dict_has_key m k = false) : dict_get m k d = d := by
  induction m with
  | nil => rfl
  | cons p rest ih =>
    obtain ⟨k1, v1⟩ := p
    simp only [dict_has_key, Bool.or_eq_false_iff, decide_eq_false_iff_not] at h
    simp [dict_get, h.1, ih h.2]

lemma dict_get_append (m l : FeatureMap) (k : String) (d : ℚ) :
    dict_get (m ++ l) k d =
      if dict_has_key m k then dict_get m k d else dict_get l k d := by
  induction m with
  | nil => simp [dict_get, dict_has_key]
  | cons p rest ih =>
    obtain ⟨k1, v1⟩ := p
    by_cases hk : k1 = k <;> simp [dict_get, dict_has_key, hk, ih]

lemma dict_get_filter_absent (m table : FeatureMap) (k : String) (d : ℚ)
    (h : dict_has_key m k = false) :
    dict_get (table.filter (fun p => ! dict_has_key m p.1)) k d =
      dict_get table k d := by
  induction table with
  | nil => rfl
  | cons p rest ih =>
    obtain ⟨k1, v1⟩ := p
    by_cases hk : k1 = k
    · subst hk
      simp [List.filter_cons, h, dict_get]
    · cases hb : dict_has_key m k1 <;>
        simp [List.filter_cons, hb, dict_get, hk, ih]

lemma dict_get_extend_absent (m table : FeatureMap) (k : String) (d : ℚ)
    (hd : dict_get table k d = d) :
    dict_get (extend_absent m table) k d = dict_get m k d := by
  unfold extend_absent
  rw [dict_get_append]
  cases h : dict_has_key m k with
  | true => simp
  | false =>
    simp only [Bool.false_eq_true, if_false]
    rw [dict_get_filter_absent m table k d h, hd, dict_get_not_has m k d h]

/-! ## Scaler lemmas -/

/-- Refitting the scaler on a single sample and transforming that same sample
yields the all-zero vector, whatever the sample was. -/
lemma scaler_transform_fit_single (xs : List ℚ) :
    scaler_transform (scaler_fit_single xs) xs = List.replicate xs.length 0 := by
  induction xs with
  | nil => rfl
  | cons x rest ih =>
    simpa [scaler_transform, scaler_fit_single, handle_zeros_in_scale,
      List.replicate_succ] using ih

/-! ## Claims -/

/-- C2 (counterexample): at distance_to_water = 10, distance_to_road = 10,
population_density = 2000 the proximity scorer does not return 100 — the
ladder sums to 30 + 30 + 20 = 80 and the clamp `min(·, 100)` leaves 80. -/
theorem proximity_example_not_100 :
    calculate_proximity_risk
      [("distance_to_water", 10), ("distance_to_road", 10),
       ("population_density", 2000)] ≠ 100 := by
  simp +decide [calculate_proximity_risk, dict_get, min_def]
  norm_num

/-- C2 (amended): with distance_to_water = 10, distance_to_road = 10 and
population_density = 2000 bound in front of arbitrary further bindings, the
proximity scorer returns exactly 80, the sum 30 + 30 + 20 lying under the
clamp of 100. -/
theorem proximity_example_eq_80 (rest : FeatureMap) :
    calculate_proximity_risk
      (("distance_to_water", (10 : ℚ)) :: ("distance_to_road", (10 : ℚ)) ::
       ("population_density", (2000 : ℚ)) :: rest) = 80 := by
  simp +decide [calculate_proximity_risk, dict_get, min_def]
  norm_num

/-- C2 (amended, witness): the amended statement instantiated at the empty
tail evaluates to 80. -/
theorem proximity_example_eq_80_witness :
    calculate_proximity_risk
      [("distance_to_water", 10), ("distance_to_road", 10),
       ("population_density", 2000)] = 80 :=
  proximity_example_eq_80 []

/-- C3 (counterexample): the hourly projection with wind_speed = 10 and
slope = 20 does not produce radii 1.0 and 2.0 after hours 0 and 1: the rate
`0.5 * (1 + 10/10 + 20/20)` is 1.5, not 1.0. -/
theorem fire_spread_example_not_one :
    (simulate_fire_spread [("wind_speed", 10)] [("slope", 20)] 2).map
      (fun p => p.radius_km) ≠ [1, 2] := by
  simp +decide [simulate_fire_spread, spread_go, hourly_spread_rate, dict_get]
  norm_num

/-- C3 (amended): with wind_speed = 10 and slope = 20 the per-hour spread
rate is the constant 1.5 km/h, and starting from radius 0 the accumulated
radius is 1.5 km after hour 0 and 3.0 km after hour 1, each hour adding the
spread rate. -/
theorem fire_spread_example_rate_and_radii :
    hourly_spread_rate [("wind_speed", 10)] [("slope", 20)] = 1.5 ∧
    (simulate_fire_spread [("wind_speed", 10)] [("slope", 20)] 2).map
      (fun p => p.radius_km) = [1.5, 3] := by
  refine ⟨?_, ?_⟩ <;>
    simp +decide [simulate_fire_spread, spread_go, hourly_spread_rate,
      dict_get] <;> norm_num

/-- C4 (counterexample): no feature mapping makes the terrain scorer exceed
100 — despite the missing clamp the slope tiers are exclusive, so the value
is at most 40 + 20 = 60. -/
theorem terrain_risk_never_above_100 :
    ¬ ∃ data : FeatureMap, 100 < calculate_terrain_risk data := by
  rintro ⟨data, h⟩
  simp only [calculate_terrain_risk] at h
  split_ifs at h <;> norm_num at h

/-- C4 (amended): the terrain scorer has no clamp in its body, yet its value
never exceeds 60 for any feature mapping, so it stays within [0,100] like
the other scorers. -/
theorem terrain_risk_bounded_by_sixty (data : FeatureMap) :
    calculate_terrain_risk data ≤ 60 := by
  simp only [calculate_terrain_risk]
  split_ifs <;> norm_num

/-- C10: the terrain scorer only takes values in
{0, 15, 20, 25, 35, 40, 45, 60}: the slope contribution is one of
{0, 15, 25, 40} (exclusive tiers), the south-facing aspect bonus is 0 or 20,
and therefore the result never exceeds 60, in particular never 100. -/
theorem terrain_risk_value_set (data : FeatureMap) :
    calculate_terrain_risk data ∈ ([0, 15, 20, 25, 35, 40, 45, 60] : List ℚ) ∧
    calculate_terrain_risk data ≤ 60 ∧ calculate_terrain_risk data ≤ 100 := by
  simp only [calculate_terrain_risk]
  split_ifs <;> norm_num

/-- C7: `_get_risk_level` realises exactly the five tiers with inclusive
lower bounds: EXTREME iff 80 ≤ s, HIGH iff 60 ≤ s < 80, MODERATE iff
40 ≤ s < 60, LOW iff 20 ≤ s < 40, MINIMAL iff s < 20. -/
theorem get_risk_level_thresholds (s : ℚ) :
    (get_risk_level s = "EXTREME" ↔ 80 ≤ s) ∧
    (get_risk_level s = "HIGH" ↔ 60 ≤ s ∧ s < 80) ∧
    (get_risk_level s = "MODERATE" ↔ 40 ≤ s ∧ s < 60) ∧
    (get_risk_level s = "LOW" ↔ 20 ≤ s ∧ s < 40) ∧
    (get_risk_level s = "MINIMAL" ↔ s < 20) := by
  unfold get_risk_level
  split_ifs with h1 h2 h3 h4 <;>
    refine ⟨?_, ?_, ?_, ?_, ?_⟩ <;> simp_all <;> intros <;> linarith

/-- C8: the recommendation list is the concatenation, in this order, of
Vegetation Management iff veg_risk > 60, Install Sprinkler System iff
overall score > 70, Create Fuel Breaks iff terrain_risk > 50, and an
unconditional Emergency Planning last; hence 1–4 entries and never empty;
at overall = 75, veg = 70, terrain = 40 it is exactly [Vegetation
Management, Install Sprinkler System, Emergency Planning]. -/
theorem generate_recommendations_spec
    (risk_score veg_risk weather_risk terrain_risk : ℚ) :
    generate_recommendations risk_score veg_risk weather_risk terrain_risk =
      (if 60 < veg_risk then [vegetation_management] else []) ++
      (if 70 < risk_score then [install_sprinkler_system] else []) ++
      (if 50 < terrain_risk then [create_fuel_breaks] else []) ++
      [emergency_planning] ∧
    1 ≤ (generate_recommendations risk_score veg_risk weather_risk
          terrain_risk).length ∧
    (generate_recommendations risk_score veg_risk weather_risk
      terrain_risk).length ≤ 4 ∧
    generate_recommendations risk_score veg_risk weather_risk terrain_risk ≠ [] ∧
    generate_recommendations 75 70 weather_risk 40 =
      [vegetation_management, install_sprinkler_system, emergency_planning] := by
  refine ⟨?_, ?_, ?_, ?_, ?_⟩
  · simp only [generate_recommendations]
    split_ifs <;> simp
  · simp only [generate_recommendations]
    split_ifs <;> simp
  · simp only [generate_recommendations]
    split_ifs <;> simp
  · simp only [generate_recommendations]
    split_ifs <;> simp
  · norm_num [generate_recommendations]

/-- C1: the overall risk score does not depend on the supplied feature
values (nor on the stored scaler): because `calculate_risk_score` refits the
normalization on the single-sample feature vector, the normalized vector
handed to the regression function is the all-zero constant for every input,
so any two feature mappings produce the same `overall_risk_score`. -/
theorem risk_score_independent_of_features (predict : List ℚ → ℚ)
    (scaler : Scaler) (d1 d2 : FeatureMap) :
    (calculate_risk_score predict scaler d1).1.overall_risk_score =
      (calculate_risk_score predict scaler d2).1.overall_risk_score := by
  have h1 := scaler_transform_fit_single
    (feature_names.map (fun n => dict_get d1 n 0))
  have h2 := scaler_transform_fit_single
    (feature_names.map (fun n => dict_get d2 n 0))
  simp only [calculate_risk_score]
  rw [h1, h2]
  simp [List.length_map]

/-- C5 (counterexample): extending a mapping with 0 for every absent feature
key changes a heuristic score: on {ndvi: 0.5} the vegetation scorer returns
40 (missing fuel_moisture defaults to 50), but after the zero-extension
fuel_moisture is 0 and it returns 60. -/
theorem heuristic_zero_extension_refuted :
    calculate_vegetation_risk (extend_absent [("ndvi", 0.5)] zero_defaults) ≠
      calculate_vegetation_risk [("ndvi", 0.5)] := by
  simp +decide [calculate_vegetation_risk, extend_absent, zero_defaults,
    feature_names, dict_has_key, dict_get]
  norm_num

/-- C5 (amended): a missing key is treated as a scorer-specific default
(ndvi 0, ndmi 0, fuel_moisture 50; temperature 20, humidity 50, wind_speed 0,
days_since_rain 0; slope 0, aspect 0; distance_to_water 10,
distance_to_road 1, population_density 100): each of the four heuristic
scores on a mapping equals the score on the same mapping extended with the
scorer defaults for every absent key. -/
theorem heuristic_default_extension (m : FeatureMap) :
    calculate_vegetation_risk (extend_absent m heuristic_defaults) =
      calculate_vegetation_risk m ∧
    calculate_weather_risk (extend_absent m heuristic_defaults) =
      calculate_weather_risk m ∧
    calculate_terrain_risk (extend_absent m heuristic_defaults) =
      calculate_terrain_risk m ∧
    calculate_proximity_risk (extend_absent m heuristic_defaults) =
      calculate_proximity_risk m := by
  refine ⟨?_, ?_, ?_, ?_⟩
  · simp only [calculate_vegetation_risk]
    rw [dict_get_extend_absent m heuristic_defaults "ndvi" 0
          (by simp +decide [heuristic_defaults, dict_get]),
        dict_get_extend_absent m heuristic_defaults "fuel_moisture" 50
          (by simp +decide [heuristic_defaults, dict_get])]
  · simp only [calculate_weather_risk]
    rw [dict_get_extend_absent m heuristic_defaults "temperature" 20
          (by simp +decide [heuristic_defaults, dict_get]),
        dict_get_extend_absent m heuristic_defaults "humidity" 50
          (by simp +decide [heuristic_defaults, dict_get]),
        dict_get_extend_absent m heuristic_defaults "wind_speed" 0
          (by simp +decide [heuristic_defaults, dict_get]),
        dict_get_extend_absent m heuristic_defaults "days_since_rain" 0
          (by simp +decide [heuristic_defaults, dict_get])]
  · simp only [calculate_terrain_risk]
    rw [dict_get_extend_absent m heuristic_defaults "slope" 0
          (by simp +decide [heuristic_defaults, dict_get]),
        dict_get_extend_absent m heuristic_defaults "aspect" 0
          (by simp +decide [heuristic_defaults, dict_get])]
  · simp only [calculate_proximity_risk]
    rw [dict_get_extend_absent m heuristic_defaults "distance_to_water" 10
          (by simp +decide [heuristic_defaults, dict_get]),
        dict_get_extend_absent m heuristic_defaults "distance_to_road" 1
          (by simp +decide [heuristic_defaults, dict_get]),
        dict_get_extend_absent m heuristic_defaults "population_density" 100
          (by simp +decide [heuristic_defaults, dict_get])]

/-- C6: an inference call does not leave the scaler unchanged: starting from
a loaded pair with mean 5 and scale 2 per feature, one `calculate_risk_score`
call on the empty mapping replaces it with the scaler refitted to that single
sample (mean equal to the call's feature vector, scale all ones). -/
theorem inference_mutates_scaler :
    (calculate_risk_score (fun _ => 0)
        { mean_ := List.replicate 15 5, scale_ := List.replicate 15 2 } []).2 ≠
      { mean_ := List.replicate 15 5, scale_ := List.replicate 15 2 } := by
  simp +decide [calculate_risk_score, scaler_fit_single, feature_names,
    dict_get, handle_zeros_in_scale, Scaler.mk.injEq]

/-- C9 (counterexample): with wind_speed = -100 and slope = 0 the hourly
projection's radii are -4.5 then -9.0, which is not monotonically
non-decreasing; the claim fails without a sign restriction on the inputs. -/
theorem fire_spread_monotone_refuted :
    ¬ List.Chain' (fun a b => a.radius_km ≤ b.radius_km)
      (simulate_fire_spread [("wind_speed", -100)] [("slope", 0)] 2) := by
  simp +decide [simulate_fire_spread, spread_go, hourly_spread_rate, dict_get]
  norm_num

lemma spread_go_chain (w t : FeatureMap) (h : 0 ≤ hourly_spread_rate w t) :
    ∀ (n hour : ℕ) (r : ℚ),
      List.Chain' (fun a b => a.radius_km ≤ b.radius_km)
        (spread_go w t n hour r) := by
  intro n
  induction n with
  | zero => intro hour r; simp [spread_go]
  | succ m ih =>
    intro hour r
    rw [spread_go]
    refine List.chain'_cons'.mpr ⟨?_, ih (hour + 1) _⟩
    intro y hy
    cases m with
    | zero => simp [spread_go] at hy
    | succ k =>
      rw [spread_go] at hy
      simp only [List.head?_cons, Option.mem_def, Option.some.injEq] at hy
      subst hy
      simp
      linarith

/-- C9 (amended): when the wind speed and slope read by the hourly
projection are non-negative, the per-hour samples have monotonically
non-decreasing `radius_km` values — each hour's radius is at least the
previous hour's. -/
theorem fire_spread_radius_monotone
    (weather_conditions terrain_data : FeatureMap) (hours : ℕ)
    (hw : 0 ≤ dict_get weather_conditions "wind_speed" 10)
    (hs : 0 ≤ dict_get terrain_data "slope" 10) :
    List.Chain' (fun a b => a.radius_km ≤ b.radius_km)
      (simulate_fire_spread weather_conditions terrain_data hours) := by
  have h : 0 ≤ hourly_spread_rate weather_conditions terrain_data := by
    unfold hourly_spread_rate
    positivity
  exact spread_go_chain weather_conditions terrain_data h hours 0 0

/-- C9 (witness): the monotonicity theorem applied at wind_speed = 10,
slope = 20, for 3 hours. -/
theorem fire_spread_radius_monotone_witness :
    (0 ≤ dict_get [("wind_speed", 10)] "wind_speed" 10) ∧
    (0 ≤ dict_get [("slope", 20)] "slope" 10) ∧
    List.Chain' (fun a b => a.radius_km ≤ b.radius_km)
      (simulate_fire_spread [("wind_speed", 10)] [("slope", 20)] 3) :=
  ⟨by simp +decide [dict_get], by simp +decide [dict_get],
    fire_spread_radius_monotone _ _ 3 (by simp +decide [dict_get])
      (by simp +decide [dict_get])⟩

end TerraInsight
